import Mathlib

/-!
Shallow embedding of the cinema-ticket purchase service
(`src/pairtest/TicketService.js`, both implementations contained in that
file, and `src/pairtest/lib/config.js`).

Modelling conventions:
* JS numbers that flow through validation are modelled as `ℚ` where the code
  may receive a non-integer (the `accountId` argument, checked with
  `Number.isInteger`), and as `ℤ` where the surrounding code guarantees an
  integer (ticket quantities, prices, limits: `TicketTypeRequest` — whose
  source file is not in the repository snapshot — stores an integral
  `noOfTickets` per the specification text "quantity (positive integer)" and
  the README, and `config.js` produces integers via `parseInt`).
* The variadic `...ticketTypeRequests` argument is a `List` whose elements are
  `Option TicketTypeRequest`: `some r` is a genuine `TicketTypeRequest`
  instance, `none` models any other JS value (the `instanceof` check fails).
* A thrown `InvalidPurchaseException` is an `Except.error` carrying a
  constructor of `PurchaseError`, one per distinct message in the source.
* The two third-party collaborators are modelled by an explicit invocation
  log: `purchaseTicketsRun` threads a `List CollabCall` exactly where the
  source performs `makePayment` / `reserveSeat`, so "collaborator invoked"
  is "entry appended to the log".
-/

namespace CinemaTickets

/-- The ticket type enumeration: `ADULT`, `CHILD`, `INFANT`. -/
inductive TicketType where
  | ADULT
  | CHILD
  | INFANT
deriving DecidableEq, Repr

/-- Embedding of `TicketTypeRequest` (file `src/pairtest/lib/TicketTypeRequest.js`, not in
the snapshot). Modelled from the spec: an immutable value with a `category`
(one of the fixed enumeration) and an integral quantity, exposed through
`getTicketType()` / `getNoOfTickets()`. Positivity of the quantity is NOT
assumed here; the service checks it itself (`numberOfTickets <= 0` throws). -/
structure TicketTypeRequest where
  ticketType : TicketType
  noOfTickets : ℤ
deriving DecidableEq, Repr

/-- One `InvalidPurchaseException` per distinct message thrown by
`TicketService.js`. The discriminants of the spec map onto these as:
InvalidAccount ↦ `invalidAccount`, NoRequests ↦ `noRequests`,
InvalidRequest ↦ `invalidRequest` or `nonPositiveQuantity`,
LimitExceeded ↦ `limitExceeded`, MissingAdult ↦ `missingAdult`,
InfantRatioExceeded ↦ `infantRatioExceeded`. -/
inductive PurchaseError where
  /-- "Account ID must be a positive integer" -/
  | invalidAccount
  /-- "At least one ticket type request must be provided" -/
  | noRequests
  /-- "Invalid ticket type request" (the `instanceof` check failed) -/
  | invalidRequest
  /-- "Number of tickets must be greater than zero" -/
  | nonPositiveQuantity
  /-- "Cannot purchase more than N tickets at a time" -/
  | limitExceeded
  /-- "Child and Infant tickets cannot be purchased without at least one
  Adult ticket" -/
  | missingAdult
  /-- "Number of Infant tickets cannot exceed the number of Adult tickets
  (Infants sit on Adult laps)" -/
  | infantRatioExceeded
deriving DecidableEq, Repr

/-- The `counts` object built by `#countTicketsByType`:
`{ INFANT: 0, CHILD: 0, ADULT: 0 }` updated per request. -/
structure TicketCounts where
  INFANT : ℤ
  CHILD : ℤ
  ADULT : ℤ
deriving DecidableEq, Repr

/-- The `#TICKET_PRICES` record: unit price per ticket type. -/
structure TicketPrices where
  INFANT : ℤ
  CHILD : ℤ
  ADULT : ℤ
deriving DecidableEq, Repr

/-- The configuration record of `src/pairtest/lib/config.js` as consumed by
the second `TicketService` implementation (`maxTickets`, `ticketPrices`,
`enforceInfantAdultRatio`; the `nodeEnv` field is never read by the
service and is omitted). -/
structure Config where
  maxTickets : ℤ
  ticketPrices : TicketPrices
  enforceInfantAdultRatio : Bool
deriving DecidableEq, Repr

/-- The configuration with every default of `config.js`:
`MAX_TICKETS` 25, prices INFANT 0 / CHILD 15 / ADULT 25, ratio enforced. -/
def defaultConfig : Config :=
  { maxTickets := 25
    ticketPrices := { INFANT := 0, CHILD := 15, ADULT := 25 }
    enforceInfantAdultRatio := true }

/-- Embedding of `Number.isInteger` on a finite JS number (modelled as a rational). -/
def isJsInteger (q : ℚ) : Bool :=
  q.den == 1

/-- An invocation of one of the two third-party collaborators. -/
inductive CollabCall where
  /-- Call `paymentService.makePayment(accountId, totalAmount)` -/
  | makePayment (accountId : ℚ) (totalAmount : ℤ)
  /-- Call `seatReservationService.reserveSeat(accountId, totalSeats)` -/
  | reserveSeat (accountId : ℚ) (totalSeats : ℤ)
deriving DecidableEq, Repr

/-- The pair of collaborator invocations a successful purchase performs. -/
structure CollabCalls where
  paymentAccountId : ℚ
  paymentAmount : ℤ
  seatAccountId : ℚ
  seatCount : ℤ
deriving DecidableEq, Repr

/-! ### The second (configuration-driven) `TicketService` implementation -/

/-- Method `#validateAccountId`: throws unless the account id is a positive
integer. -/
def validateAccountId (accountId : ℚ) : Except PurchaseError Unit :=
  if isJsInteger accountId = false ∨ accountId ≤ 0 then
    .error .invalidAccount
  else
    .ok ()

/-- Method `#validateTicketRequestsExist`: throws when no request was passed. -/
def validateTicketRequestsExist (ticketTypeRequests : List (Option TicketTypeRequest)) :
    Except PurchaseError Unit :=
  if ticketTypeRequests.length = 0 then
    .error .noRequests
  else
    .ok ()

/-- One step of the `for` loop of `#countTicketsByType`: the quantity of the
request is added at its ticket-type key. -/
def addCount (counts : TicketCounts) (t : TicketType) (n : ℤ) : TicketCounts :=
  match t with
  | .INFANT => { counts with INFANT := counts.INFANT + n }
  | .CHILD => { counts with CHILD := counts.CHILD + n }
  | .ADULT => { counts with ADULT := counts.ADULT + n }

/-- The `for` loop of `#countTicketsByType`: each request must be a
`TicketTypeRequest` instance with a positive quantity, and its quantity is
added to the running per-type counts. -/
def countLoop : List (Option TicketTypeRequest) → TicketCounts →
    Except PurchaseError TicketCounts
  | [], counts => .ok counts
  | none :: _, _ => .error .invalidRequest
  | some request :: rest, counts =>
    if request.noOfTickets ≤ 0 then
      .error .nonPositiveQuantity
    else
      countLoop rest (addCount counts request.ticketType request.noOfTickets)

/-- Method `#countTicketsByType`: counts start at zero for every type. -/
def countTicketsByType (ticketTypeRequests : List (Option TicketTypeRequest)) :
    Except PurchaseError TicketCounts :=
  countLoop ticketTypeRequests { INFANT := 0, CHILD := 0, ADULT := 0 }

/-- Method `#validateBusinessRules` of the configuration-driven implementation:
limit check, then adult-accompaniment check, then (when enabled) the
infant-per-adult ratio check. -/
def validateBusinessRules (cfg : Config) (ticketCounts : TicketCounts) :
    Except PurchaseError Unit :=
  let totalTickets := ticketCounts.INFANT + ticketCounts.CHILD + ticketCounts.ADULT
  if totalTickets > cfg.maxTickets then
    .error .limitExceeded
  else if (ticketCounts.CHILD > 0 ∨ ticketCounts.INFANT > 0) ∧ ticketCounts.ADULT = 0 then
    .error .missingAdult
  else if cfg.enforceInfantAdultRatio = true ∧ ticketCounts.INFANT > ticketCounts.ADULT then
    .error .infantRatioExceeded
  else
    .ok ()

/-- Method `#calculateTotalAmount`: Σ over the three types of count × unit price. -/
def calculateTotalAmount (cfg : Config) (ticketCounts : TicketCounts) : ℤ :=
  ticketCounts.INFANT * cfg.ticketPrices.INFANT +
  ticketCounts.CHILD * cfg.ticketPrices.CHILD +
  ticketCounts.ADULT * cfg.ticketPrices.ADULT

/-- Method `#calculateTotalSeats`: infants get no seat. -/
def calculateTotalSeats (ticketCounts : TicketCounts) : ℤ :=
  ticketCounts.CHILD + ticketCounts.ADULT

/-- Method `purchaseTickets` of the configuration-driven implementation. A thrown
exception is `Except.error`; on success the result records the two
collaborator invocations `makePayment(accountId, totalAmount)` and
`reserveSeat(accountId, totalSeats)`. -/
def purchaseTickets (cfg : Config) (accountId : ℚ)
    (ticketTypeRequests : List (Option TicketTypeRequest)) :
    Except PurchaseError CollabCalls :=
  match validateAccountId accountId with
  | .error e => .error e
  | .ok () =>
  match validateTicketRequestsExist ticketTypeRequests with
  | .error e => .error e
  | .ok () =>
  match countTicketsByType ticketTypeRequests with
  | .error e => .error e
  | .ok ticketCounts =>
  match validateBusinessRules cfg ticketCounts with
  | .error e => .error e
  | .ok () =>
    .ok { paymentAccountId := accountId
          paymentAmount := calculateTotalAmount cfg ticketCounts
          seatAccountId := accountId
          seatCount := calculateTotalSeats ticketCounts }

/-- Method `purchaseTickets` again, with the collaborator-invocation log made
explicit: the call appends to `log` exactly at the program points where the
source invokes `makePayment` and `reserveSeat`, and a thrown exception
leaves the log as it was (the throw aborts the method before any
collaborator call). -/
def purchaseTicketsRun (cfg : Config) (accountId : ℚ)
    (ticketTypeRequests : List (Option TicketTypeRequest)) (log : List CollabCall) :
    Except PurchaseError Unit × List CollabCall :=
  match validateAccountId accountId with
  | .error e => (.error e, log)
  | .ok () =>
  match validateTicketRequestsExist ticketTypeRequests with
  | .error e => (.error e, log)
  | .ok () =>
  match countTicketsByType ticketTypeRequests with
  | .error e => (.error e, log)
  | .ok ticketCounts =>
  match validateBusinessRules cfg ticketCounts with
  | .error e => (.error e, log)
  | .ok () =>
    let totalAmount := calculateTotalAmount cfg ticketCounts
    let totalSeats := calculateTotalSeats ticketCounts
    let log1 := log ++ [CollabCall.makePayment accountId totalAmount]
    let log2 := log1 ++ [CollabCall.reserveSeat accountId totalSeats]
    (.ok (), log2)

/-! ### The first (hard-coded) `TicketService` implementation

Lines 6–157 of `TicketService.js`: prices and the 25-ticket limit are
literal constants and the infant-per-adult ratio rule is unconditional. -/

namespace V1

/-- Method `#validateAccountId` of the hard-coded implementation (identical text). -/
def validateAccountId (accountId : ℚ) : Except PurchaseError Unit :=
  if isJsInteger accountId = false ∨ accountId ≤ 0 then
    .error .invalidAccount
  else
    .ok ()

/-- Method `#validateTicketRequestsExist` of the hard-coded implementation. -/
def validateTicketRequestsExist (ticketTypeRequests : List (Option TicketTypeRequest)) :
    Except PurchaseError Unit :=
  if ticketTypeRequests.length = 0 then
    .error .noRequests
  else
    .ok ()

/-- The `for` loop of `#countTicketsByType`, hard-coded implementation. -/
def countLoop : List (Option TicketTypeRequest) → TicketCounts →
    Except PurchaseError TicketCounts
  | [], counts => .ok counts
  | none :: _, _ => .error .invalidRequest
  | some request :: rest, counts =>
    if request.noOfTickets ≤ 0 then
      .error .nonPositiveQuantity
    else
      countLoop rest (addCount counts request.ticketType request.noOfTickets)

/-- Method `#countTicketsByType` of the hard-coded implementation. -/
def countTicketsByType (ticketTypeRequests : List (Option TicketTypeRequest)) :
    Except PurchaseError TicketCounts :=
  countLoop ticketTypeRequests { INFANT := 0, CHILD := 0, ADULT := 0 }

/-- Method `#validateBusinessRules` of the hard-coded implementation:
`#MAX_TICKETS = 25` and the ratio rule is not guarded by any toggle. -/
def validateBusinessRules (ticketCounts : TicketCounts) : Except PurchaseError Unit :=
  let totalTickets := ticketCounts.INFANT + ticketCounts.CHILD + ticketCounts.ADULT
  if totalTickets > 25 then
    .error .limitExceeded
  else if (ticketCounts.CHILD > 0 ∨ ticketCounts.INFANT > 0) ∧ ticketCounts.ADULT = 0 then
    .error .missingAdult
  else if ticketCounts.INFANT > ticketCounts.ADULT then
    .error .infantRatioExceeded
  else
    .ok ()

/-- Method `#calculateTotalAmount` with the literal `#TICKET_PRICES`
`{INFANT: 0, CHILD: 15, ADULT: 25}`. -/
def calculateTotalAmount (ticketCounts : TicketCounts) : ℤ :=
  ticketCounts.INFANT * 0 + ticketCounts.CHILD * 15 + ticketCounts.ADULT * 25

/-- Method `#calculateTotalSeats` of the hard-coded implementation. -/
def calculateTotalSeats (ticketCounts : TicketCounts) : ℤ :=
  ticketCounts.CHILD + ticketCounts.ADULT

/-- Method `purchaseTickets` of the hard-coded implementation. -/
def purchaseTickets (accountId : ℚ)
    (ticketTypeRequests : List (Option TicketTypeRequest)) :
    Except PurchaseError CollabCalls :=
  match validateAccountId accountId with
  | .error e => .error e
  | .ok () =>
  match validateTicketRequestsExist ticketTypeRequests with
  | .error e => .error e
  | .ok () =>
  match countTicketsByType ticketTypeRequests with
  | .error e => .error e
  | .ok ticketCounts =>
  match validateBusinessRules ticketCounts with
  | .error e => .error e
  | .ok () =>
    .ok { paymentAccountId := accountId
          paymentAmount := calculateTotalAmount ticketCounts
          seatAccountId := accountId
          seatCount := calculateTotalSeats ticketCounts }

end V1

/-! ### Configuration construction (`src/pairtest/lib/config.js`)

The `Config` class reads each field from the environment with a default and
then runs `#validate`. String parsing (`parseInt` / the boolean parse of
`#getEnvAsBool`) is abstracted: a set environment variable is modelled by
the value it parses to (`Option ℤ` / `Option Bool`, `none` = unset or
empty, in which case the default is used). -/

/-- The errors `#validate` can throw. -/
inductive ConfigError where
  /-- "MAX_TICKETS must be a positive integer" -/
  | maxTicketsNotPositive
  /-- "Ticket prices must be non-negative" -/
  | negativePrice
  /-- "Adult ticket price must be greater than zero" -/
  | adultPriceNotPositive
deriving DecidableEq, Repr

/-- Method `#validate` of the `Config` class, in source order. -/
def configValidate (c : Config) : Except ConfigError Unit :=
  if c.maxTickets ≤ 0 then
    .error .maxTicketsNotPositive
  else if c.ticketPrices.INFANT < 0 ∨ c.ticketPrices.CHILD < 0 ∨ c.ticketPrices.ADULT < 0 then
    .error .negativePrice
  else if c.ticketPrices.ADULT ≤ 0 then
    .error .adultPriceNotPositive
  else
    .ok ()

/-- The `Config` constructor: each field is the environment override when
set, the default otherwise; then `#validate` runs and the constructed
configuration is returned. -/
def mkConfig (maxTicketsEnv priceInfantEnv priceChildEnv priceAdultEnv : Option ℤ)
    (enforceRatioEnv : Option Bool) : Except ConfigError Config :=
  let c : Config :=
    { maxTickets := maxTicketsEnv.getD 25
      ticketPrices :=
        { INFANT := priceInfantEnv.getD 0
          CHILD := priceChildEnv.getD 15
          ADULT := priceAdultEnv.getD 25 }
      enforceInfantAdultRatio := enforceRatioEnv.getD true }
  match configValidate c with
  | .error e => .error e
  | .ok () => .ok c

/-! ### Specification-side aggregation

Independent restatement of "aggregated count per category" as a plain sum
over the request list, to compare the loop of `#countTicketsByType`
against. -/

/-- The quantity a single variadic argument contributes to category `t`. -/
def qtyOf (t : TicketType) : Option TicketTypeRequest → ℤ
  | some request => if request.ticketType = t then request.noOfTickets else 0
  | none => 0

/-- The aggregated count of category `t`: the sum of the quantities of all
requests of that category. -/
def sumQty (t : TicketType) (ticketTypeRequests : List (Option TicketTypeRequest)) : ℤ :=
  (ticketTypeRequests.map (qtyOf t)).sum

/-- The total quantity across all requests (any category). -/
def totalQuantity (ticketTypeRequests : List (Option TicketTypeRequest)) : ℤ :=
  (ticketTypeRequests.map (fun r =>
    match r with
    | some request => request.noOfTickets
    | none => 0)).sum

/-- Every variadic argument is a genuine `TicketTypeRequest` with a positive
quantity ("all items valid with positive quantity"). -/
def validItems (ticketTypeRequests : List (Option TicketTypeRequest)) : Bool :=
  ticketTypeRequests.all fun r =>
    match r with
    | some request => decide (0 < request.noOfTickets)
    | none => false

/-! ### Purchase as a relation (for the determinism claim)

`PurchaseOutcome cfg accountId reqs o` holds when one run of
`purchaseTickets` on those inputs can end in outcome `o`; its constructors
mirror the control paths of the method. -/

/-- The control paths of `purchaseTickets`, one constructor per exit. -/
inductive PurchaseOutcome (cfg : Config) (accountId : ℚ)
    (reqs : List (Option TicketTypeRequest)) : Except PurchaseError CollabCalls → Prop where
  | accountFailed (e : PurchaseError)
      (h : validateAccountId accountId = .error e) :
      PurchaseOutcome cfg accountId reqs (.error e)
  | requestsMissing (e : PurchaseError)
      (h1 : validateAccountId accountId = .ok ())
      (h2 : validateTicketRequestsExist reqs = .error e) :
      PurchaseOutcome cfg accountId reqs (.error e)
  | countFailed (e : PurchaseError)
      (h1 : validateAccountId accountId = .ok ())
      (h2 : validateTicketRequestsExist reqs = .ok ())
      (h3 : countTicketsByType reqs = .error e) :
      PurchaseOutcome cfg accountId reqs (.error e)
  | rulesFailed (e : PurchaseError) (ticketCounts : TicketCounts)
      (h1 : validateAccountId accountId = .ok ())
      (h2 : validateTicketRequestsExist reqs = .ok ())
      (h3 : countTicketsByType reqs = .ok ticketCounts)
      (h4 : validateBusinessRules cfg ticketCounts = .error e) :
      PurchaseOutcome cfg accountId reqs (.error e)
  | succeeded (ticketCounts : TicketCounts)
      (h1 : validateAccountId accountId = .ok ())
      (h2 : validateTicketRequestsExist reqs = .ok ())
      (h3 : countTicketsByType reqs = .ok ticketCounts)
      (h4 : validateBusinessRules cfg ticketCounts = .ok ()) :
      PurchaseOutcome cfg accountId reqs
        (.ok { paymentAccountId := accountId
               paymentAmount := calculateTotalAmount cfg ticketCounts
               seatAccountId := accountId
               seatCount := calculateTotalSeats ticketCounts })

/-! ### Helper lemmas -/

/-- Per-element split of an aggregated category count. -/
lemma sumQty_cons (t : TicketType) (r : Option TicketTypeRequest)
    (rest : List (Option TicketTypeRequest)) :
    sumQty t (r :: rest) = qtyOf t r + sumQty t rest := by
  simp [sumQty]

/-- Contributions of one argument to the three categories sum to its
quantity. -/
lemma qtyOf_split (r : Option TicketTypeRequest) :
    qtyOf .INFANT r + qtyOf .CHILD r + qtyOf .ADULT r =
      (match r with | some request => request.noOfTickets | none => 0) := by
  cases r with
  | none => simp [qtyOf]
  | some request => cases h : request.ticketType <;> simp [qtyOf, h]

/-- The three aggregated category counts sum to the total quantity. -/
lemma sumQty_total (reqs : List (Option TicketTypeRequest)) :
    sumQty .INFANT reqs + sumQty .CHILD reqs + sumQty .ADULT reqs =
      totalQuantity reqs := by
  induction reqs with
  | nil => simp [sumQty, totalQuantity]
  | cons r rest ih =>
    have h := qtyOf_split r
    simp only [sumQty_cons, totalQuantity, List.map_cons, List.sum_cons] at *
    omega

/-- When the counting loop of `#countTicketsByType` completes, the final
counts are the starting counts plus the aggregated per-category sums. -/
lemma countLoop_ok_sum :
    ∀ (reqs : List (Option TicketTypeRequest)) (c c' : TicketCounts),
      countLoop reqs c = .ok c' →
      c'.INFANT = c.INFANT + sumQty .INFANT reqs ∧
      c'.CHILD = c.CHILD + sumQty .CHILD reqs ∧
      c'.ADULT = c.ADULT + sumQty .ADULT reqs := by
  intro reqs
  induction reqs with
  | nil =>
    intro c c' h
    simp only [countLoop] at h
    cases h
    simp [sumQty]
  | cons r rest ih =>
    intro c c' h
    cases r with
    | none => simp [countLoop] at h
    | some request =>
      simp only [countLoop] at h
      split at h
      · cases h
      · have := ih (addCount c request.ticketType request.noOfTickets) c' h
        cases hq : request.ticketType <;>
          simp [addCount, hq, sumQty_cons, qtyOf] at this ⊢ <;> omega

/-- When every argument is a valid positive-quantity request, the counting
loop completes and returns the starting counts plus the aggregated sums. -/
lemma countLoop_of_validItems :
    ∀ (reqs : List (Option TicketTypeRequest)) (c : TicketCounts),
      validItems reqs = true →
      countLoop reqs c = .ok
        { INFANT := c.INFANT + sumQty .INFANT reqs
          CHILD := c.CHILD + sumQty .CHILD reqs
          ADULT := c.ADULT + sumQty .ADULT reqs } := by
  intro reqs
  induction reqs with
  | nil =>
    intro c _
    simp [countLoop, sumQty]
  | cons r rest ih =>
    intro c hv
    cases r with
    | none => simp [validItems] at hv
    | some request =>
      have hpos : 0 < request.noOfTickets := by
        simp [validItems] at hv
        exact hv.1
      have hrest : validItems rest = true := by
        simp [validItems] at hv ⊢
        exact hv.2
      simp only [countLoop, if_neg (by omega : ¬ request.noOfTickets ≤ 0)]
      rw [ih (addCount c request.ticketType request.noOfTickets) hrest]
      cases hq : request.ticketType <;>
        simp [addCount, hq, sumQty_cons, qtyOf] <;> omega

/-- The counting loop only ever increases each count, and increases the
total by at least the number of requests processed. -/
lemma countLoop_mono :
    ∀ (reqs : List (Option TicketTypeRequest)) (c c' : TicketCounts),
      countLoop reqs c = .ok c' →
      c.INFANT ≤ c'.INFANT ∧ c.CHILD ≤ c'.CHILD ∧ c.ADULT ≤ c'.ADULT ∧
      c.INFANT + c.CHILD + c.ADULT + reqs.length ≤
        c'.INFANT + c'.CHILD + c'.ADULT := by
  intro reqs
  induction reqs with
  | nil =>
    intro c c' h
    simp only [countLoop] at h
    cases h
    simp
  | cons r rest ih =>
    intro c c' h
    cases r with
    | none => simp [countLoop] at h
    | some request =>
      simp only [countLoop] at h
      split at h
      · cases h
      · rename_i hq
        have hpos : 0 < request.noOfTickets := by omega
        have := ih (addCount c request.ticketType request.noOfTickets) c' h
        cases ht : request.ticketType <;>
          simp [addCount, ht] at this ⊢ <;> omega

/-- Equality of `Except` results is decidable (used to evaluate the model on
concrete inputs). -/
instance {ε α : Type} [DecidableEq ε] [DecidableEq α] : DecidableEq (Except ε α) :=
  fun x y =>
    match x, y with
    | .error a, .error b =>
      if h : a = b then .isTrue (by rw [h]) else .isFalse (by simp [h])
    | .error _, .ok _ => .isFalse (by simp)
    | .ok _, .error _ => .isFalse (by simp)
    | .ok a, .ok b =>
      if h : a = b then .isTrue (by rw [h]) else .isFalse (by simp [h])

/-- Method `#validateAccountId` succeeds exactly on positive integral accounts. -/
lemma validateAccountId_ok_iff (accountId : ℚ) :
    validateAccountId accountId = .ok () ↔
      isJsInteger accountId = true ∧ 0 < accountId := by
  unfold validateAccountId
  split
  · rename_i h
    constructor
    · intro hc; exact absurd hc (by simp)
    · rintro ⟨h1, h2⟩
      rcases h with h | h
      · rw [h1] at h; cases h
      · exact absurd h2 (not_lt.mpr h)
  · rename_i h
    push_neg at h
    simp only [true_iff]
    exact ⟨by simpa using h.1, h.2⟩

/-- Method `#validateTicketRequestsExist` succeeds exactly on non-empty request
lists. -/
lemma validateTicketRequestsExist_ok_iff (reqs : List (Option TicketTypeRequest)) :
    validateTicketRequestsExist reqs = .ok () ↔ reqs ≠ [] := by
  unfold validateTicketRequestsExist
  split
  · rename_i h
    simp only [List.length_eq_zero] at h
    subst h
    constructor
    · intro hc; exact absurd hc (by simp)
    · intro hc; exact absurd rfl hc
  · rename_i h
    simp only [List.length_eq_zero] at h
    simp [h]

/-- Inversion of `#validateBusinessRules`: success means none of the three
rules fired. -/
lemma validateBusinessRules_ok_iff (cfg : Config) (tc : TicketCounts) :
    validateBusinessRules cfg tc = .ok () ↔
      tc.INFANT + tc.CHILD + tc.ADULT ≤ cfg.maxTickets ∧
      ¬ ((tc.CHILD > 0 ∨ tc.INFANT > 0) ∧ tc.ADULT = 0) ∧
      ¬ (cfg.enforceInfantAdultRatio = true ∧ tc.INFANT > tc.ADULT) := by
  have hrw : validateBusinessRules cfg tc =
      if tc.INFANT + tc.CHILD + tc.ADULT > cfg.maxTickets then
        .error .limitExceeded
      else if (tc.CHILD > 0 ∨ tc.INFANT > 0) ∧ tc.ADULT = 0 then
        .error .missingAdult
      else if cfg.enforceInfantAdultRatio = true ∧ tc.INFANT > tc.ADULT then
        .error .infantRatioExceeded
      else
        .ok () := rfl
  rw [hrw]
  split_ifs with h1 h2 h3
  · constructor
    · intro hc; exact absurd hc (by simp)
    · rintro ⟨ha, -, -⟩; exact absurd h1 (not_lt.mpr ha)
  · constructor
    · intro hc; exact absurd hc (by simp)
    · rintro ⟨-, hn, -⟩; exact absurd h2 hn
  · constructor
    · intro hc; exact absurd hc (by simp)
    · rintro ⟨-, -, hn⟩; exact absurd h3 hn
  · simp only [true_iff]
    exact ⟨not_lt.mp h1, h2, h3⟩

/-- Inversion of `purchaseTickets`: a successful purchase passed every
validation step and returned the computed totals for the counted tickets. -/
lemma purchaseTickets_ok_iff (cfg : Config) (accountId : ℚ)
    (reqs : List (Option TicketTypeRequest)) (calls : CollabCalls) :
    purchaseTickets cfg accountId reqs = .ok calls ↔
      ∃ tc : TicketCounts,
        validateAccountId accountId = .ok () ∧
        validateTicketRequestsExist reqs = .ok () ∧
        countTicketsByType reqs = .ok tc ∧
        validateBusinessRules cfg tc = .ok () ∧
        calls = { paymentAccountId := accountId
                  paymentAmount := calculateTotalAmount cfg tc
                  seatAccountId := accountId
                  seatCount := calculateTotalSeats tc } := by
  unfold purchaseTickets
  constructor
  · intro h
    cases h1 : validateAccountId accountId with
    | error e => simp only [h1] at h; exact absurd h (by simp)
    | ok u =>
      cases u
      cases h2 : validateTicketRequestsExist reqs with
      | error e => simp only [h1, h2] at h; exact absurd h (by simp)
      | ok u =>
        cases u
        cases h3 : countTicketsByType reqs with
        | error e => simp only [h1, h2, h3] at h; exact absurd h (by simp)
        | ok tc =>
          cases h4 : validateBusinessRules cfg tc with
          | error e => simp only [h1, h2, h3, h4] at h; exact absurd h (by simp)
          | ok u =>
            cases u
            simp only [h1, h2, h3, h4, Except.ok.injEq] at h
            exact ⟨tc, rfl, rfl, rfl, h4, h.symm⟩
  · rintro ⟨tc, h1, h2, h3, h4, h5⟩
    simp only [h1, h2, h3, h4, h5]

/-- Running `purchaseTickets` on fixed inputs always produces the error of
the first failing validation step, in source order. -/
lemma purchaseTickets_error_cases (cfg : Config) (accountId : ℚ)
    (reqs : List (Option TicketTypeRequest)) :
    (∀ e, validateAccountId accountId = .error e →
      purchaseTickets cfg accountId reqs = .error e) ∧
    (∀ e, validateAccountId accountId = .ok () →
      validateTicketRequestsExist reqs = .error e →
      purchaseTickets cfg accountId reqs = .error e) ∧
    (∀ e, validateAccountId accountId = .ok () →
      validateTicketRequestsExist reqs = .ok () →
      countTicketsByType reqs = .error e →
      purchaseTickets cfg accountId reqs = .error e) ∧
    (∀ e tc, validateAccountId accountId = .ok () →
      validateTicketRequestsExist reqs = .ok () →
      countTicketsByType reqs = .ok tc →
      validateBusinessRules cfg tc = .error e →
      purchaseTickets cfg accountId reqs = .error e) := by
  refine ⟨?_, ?_, ?_, ?_⟩
  · intro e h; unfold purchaseTickets; simp only [h]
  · intro e h1 h2; unfold purchaseTickets; simp only [h1, h2]
  · intro e h1 h2 h3; unfold purchaseTickets; simp only [h1, h2, h3]
  · intro e tc h1 h2 h3 h4; unfold purchaseTickets; simp only [h1, h2, h3, h4]

/-- Adequacy: one run of `purchaseTickets` realises the `PurchaseOutcome`
relation (so the relation is inhabited at every input). -/
lemma purchaseOutcome_run (cfg : Config) (accountId : ℚ)
    (reqs : List (Option TicketTypeRequest)) :
    PurchaseOutcome cfg accountId reqs (purchaseTickets cfg accountId reqs) := by
  cases h1 : validateAccountId accountId with
  | error e =>
    have hp : purchaseTickets cfg accountId reqs = .error e := by
      unfold purchaseTickets; simp only [h1]
    rw [hp]
    exact .accountFailed e h1
  | ok u =>
    cases u
    cases h2 : validateTicketRequestsExist reqs with
    | error e =>
      have hp : purchaseTickets cfg accountId reqs = .error e := by
        unfold purchaseTickets; simp only [h1, h2]
      rw [hp]
      exact .requestsMissing e h1 h2
    | ok u =>
      cases u
      cases h3 : countTicketsByType reqs with
      | error e =>
        have hp : purchaseTickets cfg accountId reqs = .error e := by
          unfold purchaseTickets; simp only [h1, h2, h3]
        rw [hp]
        exact .countFailed e h1 h2 h3
      | ok tc =>
        cases h4 : validateBusinessRules cfg tc with
        | error e =>
          have hp : purchaseTickets cfg accountId reqs = .error e := by
            unfold purchaseTickets; simp only [h1, h2, h3, h4]
          rw [hp]
          exact .rulesFailed e tc h1 h2 h3 h4
        | ok u =>
          cases u
          have hp : purchaseTickets cfg accountId reqs =
              .ok { paymentAccountId := accountId
                    paymentAmount := calculateTotalAmount cfg tc
                    seatAccountId := accountId
                    seatCount := calculateTotalSeats tc } := by
            unfold purchaseTickets; simp only [h1, h2, h3, h4]
          rw [hp]
          exact .succeeded tc h1 h2 h3 h4

/-- The counting loops of the two implementations agree. -/
lemma countLoop_eq_v1 :
    ∀ (reqs : List (Option TicketTypeRequest)) (c : TicketCounts),
      V1.countLoop reqs c = countLoop reqs c := by
  intro reqs
  induction reqs with
  | nil => intro c; rfl
  | cons r rest ih =>
    intro c
    cases r with
    | none => rfl
    | some request =>
      by_cases hq : request.noOfTickets ≤ 0
      · simp [V1.countLoop, countLoop, hq]
      · simp [V1.countLoop, countLoop, hq, ih]

/-- At the default configuration, the business rules of the two
implementations agree (the ratio toggle defaults to enforced). -/
lemma validateBusinessRules_eq_v1 (tc : TicketCounts) :
    V1.validateBusinessRules tc = validateBusinessRules defaultConfig tc := by
  have h1 : V1.validateBusinessRules tc =
      if tc.INFANT + tc.CHILD + tc.ADULT > 25 then
        .error .limitExceeded
      else if (tc.CHILD > 0 ∨ tc.INFANT > 0) ∧ tc.ADULT = 0 then
        .error .missingAdult
      else if tc.INFANT > tc.ADULT then
        .error .infantRatioExceeded
      else
        .ok () := rfl
  have h2 : validateBusinessRules defaultConfig tc =
      if tc.INFANT + tc.CHILD + tc.ADULT > 25 then
        .error .limitExceeded
      else if (tc.CHILD > 0 ∨ tc.INFANT > 0) ∧ tc.ADULT = 0 then
        .error .missingAdult
      else if defaultConfig.enforceInfantAdultRatio = true ∧ tc.INFANT > tc.ADULT then
        .error .infantRatioExceeded
      else
        .ok () := rfl
  rw [h1, h2]
  simp [defaultConfig]


/-- C1: for every request set accepted by `purchaseTickets` under the default
configuration, the computed price is the sum over categories of aggregated
count times unit price (Adult 25, Child 15, Infant 0) and the seat count is
the Adult count plus the Child count, infants contributing no seat. -/
theorem claim1_price_and_seat_totals (accountId : ℚ)
    (reqs : List (Option TicketTypeRequest)) (calls : CollabCalls)
    (h : purchaseTickets defaultConfig accountId reqs = .ok calls) :
    calls.paymentAmount =
      sumQty .ADULT reqs * 25 + sumQty .CHILD reqs * 15 + sumQty .INFANT reqs * 0 ∧
    calls.seatCount = sumQty .ADULT reqs + sumQty .CHILD reqs := by
  obtain ⟨tc, -, -, h3, -, h5⟩ := (purchaseTickets_ok_iff _ _ _ _).mp h
  unfold countTicketsByType at h3
  obtain ⟨hI, hC, hA⟩ := countLoop_ok_sum reqs _ tc h3
  simp only at hI hC hA
  subst h5
  simp only [calculateTotalAmount, calculateTotalSeats, defaultConfig]
  constructor <;> omega

/-- Witness for C1 at accountId 1, requests [(Adult, 2), (Child, 3)]. -/
theorem claim1_price_and_seat_totals_witness :
    ({ paymentAccountId := 1, paymentAmount := 95, seatAccountId := 1,
       seatCount := 5 } : CollabCalls).paymentAmount =
      sumQty .ADULT [some ⟨.ADULT, 2⟩, some ⟨.CHILD, 3⟩] * 25 +
      sumQty .CHILD [some ⟨.ADULT, 2⟩, some ⟨.CHILD, 3⟩] * 15 +
      sumQty .INFANT [some ⟨.ADULT, 2⟩, some ⟨.CHILD, 3⟩] * 0 ∧
    ({ paymentAccountId := 1, paymentAmount := 95, seatAccountId := 1,
       seatCount := 5 } : CollabCalls).seatCount =
      sumQty .ADULT [some ⟨.ADULT, 2⟩, some ⟨.CHILD, 3⟩] +
      sumQty .CHILD [some ⟨.ADULT, 2⟩, some ⟨.CHILD, 3⟩] :=
  claim1_price_and_seat_totals 1 [some ⟨.ADULT, 2⟩, some ⟨.CHILD, 3⟩] _ (by decide)

/-- C6: a non-positive or non-integral account id makes the purchase fail
with the invalid-account error, for any request list whatsoever (the check
runs before every other validation). -/
theorem claim6_invalid_account_priority (cfg : Config) (accountId : ℚ)
    (reqs : List (Option TicketTypeRequest))
    (h : isJsInteger accountId = false ∨ accountId ≤ 0) :
    purchaseTickets cfg accountId reqs = .error .invalidAccount := by
  unfold purchaseTickets validateAccountId
  rw [if_pos h]

/-- Witness for C6 at accountId 0 with an empty request list. -/
theorem claim6_invalid_account_priority_witness :
    ((0 : ℚ) ≤ 0) ∧
    purchaseTickets defaultConfig 0 [] = .error .invalidAccount :=
  ⟨by decide, claim6_invalid_account_priority defaultConfig 0 [] (Or.inr (by decide))⟩

/-- C8: at the default configuration values the hard-coded and the
configuration-driven `TicketService` implementations produce identical
outcomes (the same error, or the same pair of collaborator invocations with
the same arguments) on every input. -/
theorem claim8_implementations_agree (accountId : ℚ)
    (reqs : List (Option TicketTypeRequest)) :
    V1.purchaseTickets accountId reqs = purchaseTickets defaultConfig accountId reqs := by
  unfold V1.purchaseTickets purchaseTickets
  have hacc : V1.validateAccountId accountId = validateAccountId accountId := rfl
  have hexist : V1.validateTicketRequestsExist reqs = validateTicketRequestsExist reqs := rfl
  have hcount : V1.countTicketsByType reqs = countTicketsByType reqs := by
    unfold V1.countTicketsByType countTicketsByType
    exact countLoop_eq_v1 reqs _
  rw [hacc, hexist, hcount]
  cases h1 : validateAccountId accountId with
  | error e => rfl
  | ok u =>
    cases u
    cases h2 : validateTicketRequestsExist reqs with
    | error e => rfl
    | ok u =>
      cases u
      cases h3 : countTicketsByType reqs with
      | error e => rfl
      | ok tc =>
        dsimp only
        rw [validateBusinessRules_eq_v1 tc]
        cases h4 : validateBusinessRules defaultConfig tc with
        | error e => rfl
        | ok u =>
          cases u
          rfl

/-- C10: the purchase validation is deterministic — any two runs on the same
account id, request list and configuration end in the same outcome. -/
theorem claim10_validation_deterministic (cfg : Config) (accountId : ℚ)
    (reqs : List (Option TicketTypeRequest))
    (o1 o2 : Except PurchaseError CollabCalls)
    (h1 : PurchaseOutcome cfg accountId reqs o1)
    (h2 : PurchaseOutcome cfg accountId reqs o2) : o1 = o2 := by
  cases h1 <;> cases h2 <;> simp_all

/-- Witness for C10: a run derivation and a hand-built derivation at
accountId 1, requests [(Adult, 1)] are forced to the same outcome. -/
theorem claim10_validation_deterministic_witness :
    purchaseTickets defaultConfig 1 [some ⟨.ADULT, 1⟩] =
      .ok { paymentAccountId := 1, paymentAmount := 25, seatAccountId := 1,
            seatCount := 1 } :=
  claim10_validation_deterministic defaultConfig 1 [some ⟨.ADULT, 1⟩] _ _
    (purchaseOutcome_run defaultConfig 1 [some ⟨.ADULT, 1⟩])
    (PurchaseOutcome.succeeded { INFANT := 0, CHILD := 0, ADULT := 1 }
      (by decide) (by decide) (by decide) (by decide))


/-- The business-rule check with the `let` for the total inlined. -/
lemma validateBusinessRules_def (cfg : Config) (tc : TicketCounts) :
    validateBusinessRules cfg tc =
      if tc.INFANT + tc.CHILD + tc.ADULT > cfg.maxTickets then
        .error .limitExceeded
      else if (tc.CHILD > 0 ∨ tc.INFANT > 0) ∧ tc.ADULT = 0 then
        .error .missingAdult
      else if cfg.enforceInfantAdultRatio = true ∧ tc.INFANT > tc.ADULT then
        .error .infantRatioExceeded
      else
        .ok () := rfl

/-- On all-valid request lists, counting succeeds with the aggregated
per-category sums. -/
lemma countTicketsByType_of_validItems (reqs : List (Option TicketTypeRequest))
    (h : validItems reqs = true) :
    countTicketsByType reqs = .ok
      { INFANT := sumQty .INFANT reqs
        CHILD := sumQty .CHILD reqs
        ADULT := sumQty .ADULT reqs } := by
  unfold countTicketsByType
  have := countLoop_of_validItems reqs { INFANT := 0, CHILD := 0, ADULT := 0 } h
  simpa using this

/-- C3: any valid, non-empty, all-positive request set whose total quantity
exceeds the configured maximum fails with the limit error, regardless of the
category mix. -/
theorem claim3_limit_exceeded (cfg : Config) (accountId : ℚ)
    (reqs : List (Option TicketTypeRequest))
    (hint : isJsInteger accountId = true) (hpos : 0 < accountId)
    (hne : reqs ≠ []) (hvalid : validItems reqs = true)
    (hover : cfg.maxTickets < totalQuantity reqs) :
    purchaseTickets cfg accountId reqs = .error .limitExceeded := by
  have h1 := (validateAccountId_ok_iff accountId).mpr ⟨hint, hpos⟩
  have h2 := (validateTicketRequestsExist_ok_iff reqs).mpr hne
  have h3 := countTicketsByType_of_validItems reqs hvalid
  have htot := sumQty_total reqs
  have h4 : validateBusinessRules cfg
      { INFANT := sumQty .INFANT reqs
        CHILD := sumQty .CHILD reqs
        ADULT := sumQty .ADULT reqs } = .error .limitExceeded := by
    rw [validateBusinessRules_def]
    dsimp only
    rw [if_pos (by omega)]
  exact (purchaseTickets_error_cases cfg accountId reqs).2.2.2 _ _ h1 h2 h3 h4

/-- Witness for C3 at accountId 1, requests [(Adult, 26)], default limit. -/
theorem claim3_limit_exceeded_witness :
    purchaseTickets defaultConfig 1 [some ⟨.ADULT, 26⟩] = .error .limitExceeded :=
  claim3_limit_exceeded defaultConfig 1 [some ⟨.ADULT, 26⟩]
    (by decide) (by decide) (by decide) (by decide) (by decide)

/-- C4 counterexample: accountId 1, requests [(Child, 26)] — a valid,
non-empty, all-positive request set with Child count > 0 and Adult count 0
— fails with the limit error, not the missing-adult error the claim
demands. -/
theorem claim4_counterexample :
    validItems [some ⟨.CHILD, 26⟩] = true ∧
    0 < sumQty .CHILD [some ⟨.CHILD, 26⟩] ∧
    sumQty .ADULT [some ⟨.CHILD, 26⟩] = 0 ∧
    purchaseTickets defaultConfig 1 [some ⟨.CHILD, 26⟩] = .error .limitExceeded ∧
    purchaseTickets defaultConfig 1 [some ⟨.CHILD, 26⟩] ≠ .error .missingAdult := by
  exact ⟨by decide, by decide, by decide, by decide, by decide⟩

/-- C4 as amended: additionally requiring the total quantity to stay within
the configured maximum, a request set with Child or Infant tickets and no
Adult ticket fails with the missing-adult error. -/
theorem claim4_missing_adult_amended (cfg : Config) (accountId : ℚ)
    (reqs : List (Option TicketTypeRequest))
    (hint : isJsInteger accountId = true) (hpos : 0 < accountId)
    (hne : reqs ≠ []) (hvalid : validItems reqs = true)
    (hlim : totalQuantity reqs ≤ cfg.maxTickets)
    (hca : 0 < sumQty .CHILD reqs ∨ 0 < sumQty .INFANT reqs)
    (hadult : sumQty .ADULT reqs = 0) :
    purchaseTickets cfg accountId reqs = .error .missingAdult := by
  have h1 := (validateAccountId_ok_iff accountId).mpr ⟨hint, hpos⟩
  have h2 := (validateTicketRequestsExist_ok_iff reqs).mpr hne
  have h3 := countTicketsByType_of_validItems reqs hvalid
  have htot := sumQty_total reqs
  have h4 : validateBusinessRules cfg
      { INFANT := sumQty .INFANT reqs
        CHILD := sumQty .CHILD reqs
        ADULT := sumQty .ADULT reqs } = .error .missingAdult := by
    rw [validateBusinessRules_def]
    dsimp only
    rw [if_neg (by omega), if_pos (show _ ∧ _ from ⟨hca, hadult⟩)]
  exact (purchaseTickets_error_cases cfg accountId reqs).2.2.2 _ _ h1 h2 h3 h4

/-- Witness for amended C4 at accountId 1, requests [(Child, 1)]. -/
theorem claim4_missing_adult_amended_witness :
    purchaseTickets defaultConfig 1 [some ⟨.CHILD, 1⟩] = .error .missingAdult :=
  claim4_missing_adult_amended defaultConfig 1 [some ⟨.CHILD, 1⟩]
    (by decide) (by decide) (by decide) (by decide) (by decide)
    (Or.inl (by decide)) (by decide)

/-- C5 counterexample, ratio rule enabled (the default): (i) accountId 1,
requests [(Infant, 1)] has Infant count > Adult count yet fails with the
missing-adult error; (ii) accountId 1, requests [(Adult, 1), (Infant, 25)]
has Infant count > Adult count yet fails with the limit error. Neither
fails with the infant-ratio error the claim demands. -/
theorem claim5_counterexample :
    defaultConfig.enforceInfantAdultRatio = true ∧
    (validItems [some ⟨.INFANT, 1⟩] = true ∧
     sumQty .ADULT [some ⟨.INFANT, 1⟩] < sumQty .INFANT [some ⟨.INFANT, 1⟩] ∧
     purchaseTickets defaultConfig 1 [some ⟨.INFANT, 1⟩] = .error .missingAdult ∧
     purchaseTickets defaultConfig 1 [some ⟨.INFANT, 1⟩] ≠ .error .infantRatioExceeded) ∧
    (validItems [some ⟨.ADULT, 1⟩, some ⟨.INFANT, 25⟩] = true ∧
     sumQty .ADULT [some ⟨.ADULT, 1⟩, some ⟨.INFANT, 25⟩] <
       sumQty .INFANT [some ⟨.ADULT, 1⟩, some ⟨.INFANT, 25⟩] ∧
     purchaseTickets defaultConfig 1 [some ⟨.ADULT, 1⟩, some ⟨.INFANT, 25⟩] =
       .error .limitExceeded ∧
     purchaseTickets defaultConfig 1 [some ⟨.ADULT, 1⟩, some ⟨.INFANT, 25⟩] ≠
       .error .infantRatioExceeded) := by
  exact ⟨by decide, ⟨by decide, by decide, by decide, by decide⟩,
    ⟨by decide, by decide, by decide, by decide⟩⟩

/-- C5 as amended: with the ratio rule enabled, and additionally requiring
the total quantity to stay within the configured maximum and at least one
Adult ticket, a request set with more Infants than Adults fails with the
infant-ratio error. -/
theorem claim5_infant_ratio_amended (cfg : Config) (accountId : ℚ)
    (reqs : List (Option TicketTypeRequest))
    (hratio : cfg.enforceInfantAdultRatio = true)
    (hint : isJsInteger accountId = true) (hpos : 0 < accountId)
    (hne : reqs ≠ []) (hvalid : validItems reqs = true)
    (hlim : totalQuantity reqs ≤ cfg.maxTickets)
    (hadult : 0 < sumQty .ADULT reqs)
    (hinf : sumQty .ADULT reqs < sumQty .INFANT reqs) :
    purchaseTickets cfg accountId reqs = .error .infantRatioExceeded := by
  have h1 := (validateAccountId_ok_iff accountId).mpr ⟨hint, hpos⟩
  have h2 := (validateTicketRequestsExist_ok_iff reqs).mpr hne
  have h3 := countTicketsByType_of_validItems reqs hvalid
  have htot := sumQty_total reqs
  have h4 : validateBusinessRules cfg
      { INFANT := sumQty .INFANT reqs
        CHILD := sumQty .CHILD reqs
        ADULT := sumQty .ADULT reqs } = .error .infantRatioExceeded := by
    rw [validateBusinessRules_def]
    dsimp only
    rw [if_neg (by omega), if_neg (by omega), if_pos ⟨hratio, hinf⟩]
  exact (purchaseTickets_error_cases cfg accountId reqs).2.2.2 _ _ h1 h2 h3 h4

/-- Witness for amended C5 at accountId 1, requests [(Adult, 1), (Infant, 2)]. -/
theorem claim5_infant_ratio_amended_witness :
    purchaseTickets defaultConfig 1 [some ⟨.ADULT, 1⟩, some ⟨.INFANT, 2⟩] =
      .error .infantRatioExceeded :=
  claim5_infant_ratio_amended defaultConfig 1 [some ⟨.ADULT, 1⟩, some ⟨.INFANT, 2⟩]
    (by decide) (by decide) (by decide) (by decide) (by decide) (by decide)
    (by decide) (by decide)


/-- Bounds from a successful count: all per-category counts are
non-negative and their total is at least the number of requests. -/
lemma countTicketsByType_ok_bounds (reqs : List (Option TicketTypeRequest))
    (tc : TicketCounts) (h : countTicketsByType reqs = .ok tc) :
    0 ≤ tc.INFANT ∧ 0 ≤ tc.CHILD ∧ 0 ≤ tc.ADULT ∧
    (reqs.length : ℤ) ≤ tc.INFANT + tc.CHILD + tc.ADULT := by
  unfold countTicketsByType at h
  have := countLoop_mono reqs _ tc h
  simpa using this

/-- C2: a purchase that fails validation never touches the collaborator
invocation log; a purchase that passes validation appends exactly one
payment invocation with (accountId, total price) followed by exactly one
seat-reservation invocation with (accountId, total seats). At accountId 1
with requests [(Adult, 2), (Child, 3)] under the default configuration this
is one payment of 95 and one reservation of 5 seats, while
[(Adult, 1), (Infant, 2)] fails with the ratio error and invokes nothing. -/
theorem claim2_collaborator_invocations :
    (∀ (cfg : Config) (accountId : ℚ) (reqs : List (Option TicketTypeRequest))
        (log : List CollabCall),
      (∀ e, (purchaseTicketsRun cfg accountId reqs log).1 = .error e →
        (purchaseTicketsRun cfg accountId reqs log).2 = log) ∧
      ((purchaseTicketsRun cfg accountId reqs log).1 = .ok () →
        ∃ tc, countTicketsByType reqs = .ok tc ∧
          (purchaseTicketsRun cfg accountId reqs log).2 =
            log ++ [CollabCall.makePayment accountId (calculateTotalAmount cfg tc),
                    CollabCall.reserveSeat accountId (calculateTotalSeats tc)])) ∧
    purchaseTicketsRun defaultConfig 1 [some ⟨.ADULT, 2⟩, some ⟨.CHILD, 3⟩] [] =
      (.ok (), [CollabCall.makePayment 1 95, CollabCall.reserveSeat 1 5]) ∧
    purchaseTicketsRun defaultConfig 1 [some ⟨.ADULT, 1⟩, some ⟨.INFANT, 2⟩] [] =
      (.error .infantRatioExceeded, []) := by
  refine ⟨?_, by decide, by decide⟩
  intro cfg accountId reqs log
  unfold purchaseTicketsRun
  cases h1 : validateAccountId accountId with
  | error e => exact ⟨fun _ _ => rfl, fun hc => absurd hc (by simp)⟩
  | ok u =>
    cases u
    dsimp only
    cases h2 : validateTicketRequestsExist reqs with
    | error e => exact ⟨fun _ _ => rfl, fun hc => absurd hc (by simp)⟩
    | ok u =>
      cases u
      dsimp only
      cases h3 : countTicketsByType reqs with
      | error e => exact ⟨fun _ _ => rfl, fun hc => absurd hc (by simp)⟩
      | ok tc =>
        dsimp only
        cases h4 : validateBusinessRules cfg tc with
        | error e => exact ⟨fun _ _ => rfl, fun hc => absurd hc (by simp)⟩
        | ok u =>
          cases u
          dsimp only
          refine ⟨fun e hc => absurd hc (by simp), fun _ => ⟨tc, rfl, ?_⟩⟩
          simp

/-- Witness for C2: an invalid account leaves the log empty. -/
theorem claim2_collaborator_invocations_witness :
    (purchaseTicketsRun defaultConfig 0 [some ⟨.ADULT, 1⟩] []).2 = [] :=
  (claim2_collaborator_invocations.1 defaultConfig 0 [some ⟨.ADULT, 1⟩] []).1
    .invalidAccount (by decide)

/-- C7 (implicit invariant): every purchase that completes without error
counted at least one Adult ticket; hence the reserved seat count is at
least 1 and, when the Child and Infant prices are non-negative (as the
configuration validator guarantees), the charged amount is at least the
Adult unit price — strictly positive under the default prices. -/
theorem claim7_success_invariants (cfg : Config) (accountId : ℚ)
    (reqs : List (Option TicketTypeRequest)) (calls : CollabCalls)
    (hpi : 0 ≤ cfg.ticketPrices.INFANT) (hpc : 0 ≤ cfg.ticketPrices.CHILD)
    (hpa : 0 ≤ cfg.ticketPrices.ADULT)
    (h : purchaseTickets cfg accountId reqs = .ok calls) :
    (∃ tc, countTicketsByType reqs = .ok tc ∧ 1 ≤ tc.ADULT) ∧
    1 ≤ calls.seatCount ∧
    cfg.ticketPrices.ADULT ≤ calls.paymentAmount ∧
    (cfg = defaultConfig → 0 < calls.paymentAmount) := by
  obtain ⟨tc, -, h2, h3, h4, h5⟩ := (purchaseTickets_ok_iff _ _ _ _).mp h
  have hne : reqs ≠ [] := (validateTicketRequestsExist_ok_iff reqs).mp h2
  have hlen : 1 ≤ (reqs.length : ℤ) := by
    have : 0 < reqs.length := List.length_pos.mpr hne
    omega
  obtain ⟨hI0, hC0, hA0, htot⟩ := countTicketsByType_ok_bounds reqs tc h3
  obtain ⟨-, hma, -⟩ := (validateBusinessRules_ok_iff cfg tc).mp h4
  have hA1 : 1 ≤ tc.ADULT := by omega
  subst h5
  have hseat : (1 : ℤ) ≤ calculateTotalSeats tc := by
    simp only [calculateTotalSeats]
    omega
  have hamount : cfg.ticketPrices.ADULT ≤ calculateTotalAmount cfg tc := by
    simp only [calculateTotalAmount]
    have t1 : 0 ≤ tc.INFANT * cfg.ticketPrices.INFANT := mul_nonneg hI0 hpi
    have t2 : 0 ≤ tc.CHILD * cfg.ticketPrices.CHILD := mul_nonneg hC0 hpc
    have t3 : cfg.ticketPrices.ADULT ≤ tc.ADULT * cfg.ticketPrices.ADULT :=
      le_mul_of_one_le_left hpa hA1
    linarith
  refine ⟨⟨tc, h3, hA1⟩, hseat, hamount, ?_⟩
  intro hcfg
  subst hcfg
  have h25 : (25 : ℤ) ≤ calculateTotalAmount defaultConfig tc := by
    simpa [defaultConfig] using hamount
  simpa using lt_of_lt_of_le (by omega : (0 : ℤ) < 25) h25

/-- Witness for C7 at accountId 1, requests [(Adult, 1)]. -/
theorem claim7_success_invariants_witness :
    (∃ tc, countTicketsByType [some ⟨.ADULT, 1⟩] = .ok tc ∧ 1 ≤ tc.ADULT) ∧
    (1 : ℤ) ≤ ({ paymentAccountId := 1, paymentAmount := 25, seatAccountId := 1,
                 seatCount := 1 } : CollabCalls).seatCount ∧
    defaultConfig.ticketPrices.ADULT ≤
      ({ paymentAccountId := 1, paymentAmount := 25, seatAccountId := 1,
         seatCount := 1 } : CollabCalls).paymentAmount ∧
    (defaultConfig = defaultConfig →
      0 < ({ paymentAccountId := 1, paymentAmount := 25, seatAccountId := 1,
             seatCount := 1 } : CollabCalls).paymentAmount) :=
  claim7_success_invariants defaultConfig 1 [some ⟨.ADULT, 1⟩] _
    (by decide) (by decide) (by decide) (by decide)

/-- Inversion of the configuration validator: success is exactly the
pricing invariant (positive limit, non-negative prices, positive Adult
price). -/
lemma configValidate_ok_iff (c : Config) :
    configValidate c = .ok () ↔
      0 < c.maxTickets ∧ 0 ≤ c.ticketPrices.INFANT ∧
      0 ≤ c.ticketPrices.CHILD ∧ 0 < c.ticketPrices.ADULT := by
  unfold configValidate
  split_ifs with h1 h2 h3
  · constructor
    · intro hc; exact absurd hc (by simp)
    · rintro ⟨hm, -, -, -⟩; exfalso; omega
  · constructor
    · intro hc; exact absurd hc (by simp)
    · rintro ⟨-, hI, hC, hA⟩; exfalso; omega
  · constructor
    · intro hc; exact absurd hc (by simp)
    · rintro ⟨-, -, -, hA⟩; exfalso; omega
  · simp only [true_iff]
    refine ⟨by omega, ?_, ?_, by omega⟩ <;> omega

/-- C9: with no overriding environment values the loaded configuration is
the default one (limit 25, prices 0/15/25, ratio enforced); construction
fails whenever the effective maximum is not positive, any effective price is
negative, or the effective Adult price is not strictly positive; and any
configuration it does construct satisfies the pricing invariant. -/
theorem claim9_config_invariant :
    mkConfig none none none none none = .ok defaultConfig ∧
    ∀ (mt pInf pCh pAd : Option ℤ) (en : Option Bool),
      ((mt.getD 25 ≤ 0 ∨ pInf.getD 0 < 0 ∨ pCh.getD 15 < 0 ∨ pAd.getD 25 ≤ 0) →
        ∃ e, mkConfig mt pInf pCh pAd en = .error e) ∧
      (∀ c, mkConfig mt pInf pCh pAd en = .ok c →
        0 < c.maxTickets ∧ 0 ≤ c.ticketPrices.INFANT ∧
        0 ≤ c.ticketPrices.CHILD ∧ 0 < c.ticketPrices.ADULT) := by
  refine ⟨by decide, ?_⟩
  intro mt pInf pCh pAd en
  have hdef : mkConfig mt pInf pCh pAd en =
      (match configValidate
          { maxTickets := mt.getD 25
            ticketPrices :=
              { INFANT := pInf.getD 0, CHILD := pCh.getD 15, ADULT := pAd.getD 25 }
            enforceInfantAdultRatio := en.getD true } with
       | .error e => .error e
       | .ok () => .ok
          { maxTickets := mt.getD 25
            ticketPrices :=
              { INFANT := pInf.getD 0, CHILD := pCh.getD 15, ADULT := pAd.getD 25 }
            enforceInfantAdultRatio := en.getD true }) := rfl
  constructor
  · intro hviol
    cases hv : configValidate
        { maxTickets := mt.getD 25
          ticketPrices :=
            { INFANT := pInf.getD 0, CHILD := pCh.getD 15, ADULT := pAd.getD 25 }
          enforceInfantAdultRatio := en.getD true } with
    | error e => exact ⟨e, by rw [hdef, hv]⟩
    | ok u =>
      cases u
      have hinv := (configValidate_ok_iff _).mp hv
      simp only at hinv
      exfalso
      omega
  · intro c hc
    rw [hdef] at hc
    cases hv : configValidate
        { maxTickets := mt.getD 25
          ticketPrices :=
            { INFANT := pInf.getD 0, CHILD := pCh.getD 15, ADULT := pAd.getD 25 }
          enforceInfantAdultRatio := en.getD true } with
    | error e => rw [hv] at hc; exact absurd hc (by simp)
    | ok u =>
      cases u
      rw [hv] at hc
      simp only [Except.ok.injEq] at hc
      subst hc
      exact (configValidate_ok_iff _).mp hv

/-- Witness for C9: a zero maximum makes construction fail. -/
theorem claim9_config_invariant_witness :
    ((some (0 : ℤ)).getD 25 ≤ 0 ∨ (none : Option ℤ).getD 0 < 0 ∨
      (none : Option ℤ).getD 15 < 0 ∨ (none : Option ℤ).getD 25 ≤ 0) ∧
    ∃ e, mkConfig (some 0) none none none none = .error e :=
  ⟨Or.inl (by decide),
   (claim9_config_invariant.2 (some 0) none none none none).1 (Or.inl (by decide))⟩

end CinemaTickets
